import Mathlib

/-!
# Verification of the 3x-ui control plane against its specification

Shallow embedding of the Xray control-plane code of this repository:
the client filter and configuration synthesis (`xrayservice`, two source
variants), the Warp registration client with its retry loop
(`web/service/warp.go`, two source variants), the restart logic of the process
supervisor, and the process-wide restart flag.

Go dynamic JSON values (`map[string]interface{}`, `[]interface{}`) are
embedded as an inductive `JVal`; Go maps appear as association lists with
`List.lookup` for indexing. Machine integers never overflow in the
modelled code paths, so `Nat` is used directly.
-/

namespace XUi

/-- Embedding of a decoded Go JSON value (`interface{}` after
`json.Unmarshal`): string, bool, object (Go `map[string]interface{}`,
as an association list), array (Go `[]interface{}`), or null. Numeric
payloads do not occur in the modelled code paths and are represented
by `num`. -/
inductive JVal where
  | str (s : String)
  | bool (b : Bool)
  | num (n : Int)
  | obj (fields : List (String × JVal))
  | arr (elems : List JVal)
  | null

/-- `ClientTraffic` as used by `filterActiveClients`: the per-client
entitlement record, matched by email, with an enabled flag
(`false` means expired or over a traffic limit). Only the two fields the
filter reads are embedded. -/
structure ClientTraffic where
  Email : String
  Enable : Bool
deriving DecidableEq, Repr

/-- The key allow-list of the client clean-up loop in
`filterActiveClients` (src/unnamed/part_000, lines 208-211): every other
key is deleted from the client map. -/
def clientKeepKeys : List String := ["email", "id", "password", "flow", "method"]

/-- The test `c["flow"] == "xtls-rprx-vision-udp443"` on a looked-up Go
interface value: true exactly when the entry is present and is that
string. -/
def isFlowAlias : Option JVal → Bool
  | some (JVal.str s) => s = "xtls-rprx-vision-udp443"
  | _ => false

/-- The flow normalization inside the clean-up loop
(src/unnamed/part_000, lines 212-214): the alias
`xtls-rprx-vision-udp443` is rewritten to `xtls-rprx-vision`. Go map
assignment replaces the value in place; keys are unchanged. -/
def normalizeFlow (c : List (String × JVal)) : List (String × JVal) :=
  if isFlowAlias (c.lookup "flow") then
    c.map (fun kv => if kv.1 = "flow" then ("flow", JVal.str "xtls-rprx-vision") else kv)
  else c

/-- The clean-up of one kept client (src/unnamed/part_000, lines
207-215): delete every key outside `clientKeepKeys`, then normalize the
flow alias. (The Go code runs the flow check inside the delete loop;
since the check is idempotent and only fires when a "flow" entry is
present, the composed form is the same function.) -/
def cleanClient (c : List (String × JVal)) : List (String × JVal) :=
  normalizeFlow (c.filter (fun kv => kv.1 ∈ clientKeepKeys))

/-- The skip test on the own "enable" setting of a client
(src/unnamed/part_000, lines 201-205): `c["enable"] != nil` followed by
the checked bool assertion skips exactly a present boolean `false`
(a JSON null decodes to a nil interface, so it does not skip; a non-bool
value fails the assertion, so it does not skip either). -/
def isExplicitlyDisabled : Option JVal → Bool
  | some (JVal.bool b) => !b
  | _ => false

/-- One iteration of the main loop of `filterActiveClients`
(src/unnamed/part_000, lines 192-217): a non-object entry is skipped; an
entry whose own "enable" setting is the boolean `false` is skipped
(a present non-bool or JSON-null value does not skip, matching
`c["enable"] != nil` followed by the checked bool assertion); every other
object is kept, cleaned. -/
def keepClient (client : JVal) : Option JVal :=
  match client with
  | JVal.obj c =>
      if isExplicitlyDisabled (c.lookup "enable") then none
      else some (JVal.obj (cleanClient c))
  | _ => none

/-- `filterActiveClients` (src/unnamed/part_000, lines 189-228). The
main loop appends each kept, cleaned client to `finalClients` in input
order. The second loop (lines 220-225) ranges over `clientStats` and,
for a record with `Enable = false` whose email was seen, logs a removal
message and deletes the email from the local `clientEmailSet` map — it
never touches `finalClients`, so the returned list does not depend on
`clientStats` at all. -/
def filterActiveClients (clients : List JVal) (clientStats : List ClientTraffic) :
    List JVal :=
  clients.filterMap keepClient

/-- The set of emails the stats loop of `filterActiveClients` logs as
"removed" (src/unnamed/part_000, lines 220-225): emails of stats records
with `Enable = false` that occur among the emails of the input clients. The
loop deletes them only from the function-local `clientEmailSet`; this
definition records what the log claims was removed. -/
def loggedRemovedEmails (clients : List JVal) (clientStats : List ClientTraffic) :
    List String :=
  let emails := clients.filterMap (fun client =>
    match client with
    | JVal.obj c =>
        some (match c.lookup "email" with
              | some (JVal.str e) => e
              | _ => "")
    | _ => none)
  (clientStats.filter (fun ct => !ct.Enable && emails.contains ct.Email)).map
    ClientTraffic.Email

/-- Whether a client-list entry is an object whose "email" entry is the
string `e`. -/
def hasEmail (e : String) : JVal → Bool
  | JVal.obj c =>
      match c.lookup "email" with
      | some (JVal.str s) => s = e
      | _ => false
  | _ => false

/-- Number of entries of a client list that are objects whose "email"
entry is the string `e`. -/
def countEmail (e : String) (clients : List JVal) : Nat :=
  (clients.filter (hasEmail e)).length

/-! ## Registration client retry loop (`web/service/warp.go`, both variants) -/

/-- Minimal embedding of `*http.Response` as the retry loop sees it: the
loop never inspects anything but passes the response through, so only
the status code is carried (to show that a 5xx response is treated the
same as any other response). -/
structure Response where
  status : Nat
deriving DecidableEq, Repr

/-- The backoff of attempt `i` in nanoseconds:
`time.Duration((1<<i)*500) * time.Millisecond` (warp.go line 90 in the
first variant, line 324 in the second). No cap is ever applied. -/
def backoffNs (i : Nat) : Nat := 2 ^ i * 500000000

/-- The defaulting of `maxRetries` in the first variant
(warp.go lines 67-69): a zero (unset) value is replaced by 5. The second
variant has no such defaulting. -/
def effMaxRetries (m : Nat) : Nat := if m = 0 then 5 else m

/-- Observable outcome of one `doWithRetry` call: the returned
`(resp, err)` pair, the number of attempts performed (calls of
`client.Do`), and the sequence of sleep durations in nanoseconds, in
order. An `Except.error` models a non-nil Go error. -/
structure RetryRun where
  result : Except String Response
  attempts : Nat
  sleepsNs : List Nat
deriving Repr

/-- The loop body of `doWithRetry` (warp.go lines 71-93 / 316-325),
with the outcome of `client.Do` on attempt `i` supplied by `oracle i`
(an `Except.error` is a transport error; any received response — of any
status — arrives as `Except.ok`). `delay i` is the sleep after a failed
attempt `i`; the Go loop sleeps even after the final failed attempt
before returning. The threaded `last` string is the message of the most
recent failure, used to build the final
`fmt.Errorf("all retry attempts failed: %v", err)`. -/
def retryAux (oracle : Nat → Except String Response) (delay : Nat → Nat) :
    Nat → Nat → String → RetryRun
  | _, 0, last =>
      ⟨Except.error ("all retry attempts failed: " ++ last), 0, []⟩
  | i, r + 1, _ =>
      match oracle i with
      | Except.ok resp => ⟨Except.ok resp, 1, []⟩
      | Except.error e =>
          let rest := retryAux oracle delay (i + 1) r e
          ⟨rest.result, rest.attempts + 1, delay i :: rest.sleepsNs⟩

/-- `doWithRetry` of the first variant (warp.go lines 62-96):
`for i := 0; i <= s.maxRetries; i++` makes `effMaxRetries m + 1`
attempts; the sleep after a failed attempt `i` is
`backoff + jitter` where `jitter = rand.Int63n(int64(backoff / 2))`,
supplied here as an oracle subject to `2 * jitter i < backoffNs i`. -/
def doWithRetry (m : Nat) (jitter : Nat → Nat)
    (oracle : Nat → Except String Response) : RetryRun :=
  retryAux oracle (fun i => backoffNs i + jitter i) 0 (effMaxRetries m + 1) ""

/-- `doWithRetry` of the second variant (warp.go lines 311-328): no
defaulting of `maxRetries` and no jitter (`time.Sleep` of the plain
exponential backoff). -/
def doWithRetryV2 (m : Nat) (oracle : Nat → Except String Response) : RetryRun :=
  retryAux oracle backoffNs 0 (m + 1) ""

/-! ## Process supervisor (`xrayservice`, src/unnamed/part_000 and part_001) -/

/-- Modelled from the spec: `SynthesizedConfig` is the complete,
equality-comparable configuration object (`xray.Config`, whose type
lives in the `x-ui/xray` package outside src/). The supervisor uses it
only through construction and the structural-equality method `Equals`,
so it is embedded as a record of opaque inbound and outbound blocks with
decidable structural equality. -/
structure Config where
  inboundConfigs : List String
  outboundConfigs : List String
deriving DecidableEq, Repr

/-- Modelled from the spec: `ProcessHandle` (`xray.Process`, outside
src/) — running flag, the config the process was constructed with
(`GetConfig`), and a version string (`GetVersion`). `NewProcess(cfg)`
stores `cfg`; `Start` makes the handle report running on success. -/
structure Process where
  config : Config
  running : Bool
  version : String
deriving DecidableEq, Repr

/-- State of the supervisor globals of `xrayservice`: the process-wide
handle `p` (`nil` before the first start) and the captured `result`
string. -/
structure XState where
  p : Option Process
  result : String
deriving DecidableEq, Repr

/-- Environment of one `RestartXray` call: the outcome of
`s.GetXrayConfig()` (deterministic while rules and credential are
unchanged), whether `p.Stop()` would return a non-nil error, whether the
`Start()` of the new process succeeds, and the version string of the new
process. The stop and start outcomes are modelled from the spec, since
`xray.Process` is outside src/. -/
structure Env where
  getConfig : Except String Config
  stopOk : Bool
  startOk : Bool
  version : String

/-- Observable process-lifecycle events of one restart call: a stop of
the old process (attempted termination) and a start of a newly
constructed process with its config (one process replacement). -/
inductive Event where
  | stop
  | start (cfg : Config)
deriving DecidableEq, Repr

/-- `IsXrayRunning` (part_000 lines 28-30, part_001 lines 38-40):
`p != nil && p.IsRunning()`. -/
def isXrayRunning (st : XState) : Bool :=
  match st.p with
  | some pr => pr.running
  | none => false

/-- The `p.GetConfig()` view of the state: the config of the current
handle, if any. -/
def runningConfig (st : XState) : Option Config :=
  st.p.map Process.config

/-- The tail of both `RestartXray` variants (part_000 lines 320-328,
part_001 lines 243-249): `p = xray.NewProcess(xrayConfig)`,
`result = ""`, `err = p.Start()`; a start failure is returned and leaves
the fresh, not-running handle installed. `evs` carries the events of the
preceding stop, and the start attempt is appended. -/
def startNewProcess (env : Env) (cfg : Config) (evs : List Event) :
    Except String Unit × XState × List Event :=
  (if env.startOk = true then Except.ok () else Except.error "start failed",
   ⟨some ⟨cfg, env.startOk, env.version⟩, ""⟩,
   evs ++ [Event.start cfg])

/-- `RestartXray` of src/unnamed/part_000 (lines 297-329): synthesize
the config; if running, not forced and the running config `Equals` the
new one, no-op with success; otherwise stop the old process — and in
this variant a stop failure is returned immediately, aborting the
restart — then construct and start the new process. -/
def restartXray000 (env : Env) (isForce : Bool) (st : XState) :
    Except String Unit × XState × List Event :=
  match env.getConfig with
  | Except.error e => (Except.error e, st, [])
  | Except.ok cfg =>
      if isXrayRunning st = true then
        if isForce = false ∧ runningConfig st = some cfg then
          (Except.ok (), st, [])
        else if env.stopOk = true then
          startNewProcess env cfg [Event.stop]
        else
          (Except.error "stop failed", st, [Event.stop])
      else
        startNewProcess env cfg []

/-- `RestartXray` of src/unnamed/part_001 (lines 222-255): as in
part_000, except that a failure of `p.Stop()` is only logged
(lines 237-240) and the call proceeds to construct and start the
replacement regardless. (The monitor goroutine spawned after a
successful start is concurrency and outside this model.) -/
def restartXray001 (env : Env) (isForce : Bool) (st : XState) :
    Except String Unit × XState × List Event :=
  match env.getConfig with
  | Except.error e => (Except.error e, st, [])
  | Except.ok cfg =>
      if isXrayRunning st = true then
        if isForce = false ∧ runningConfig st = some cfg then
          (Except.ok (), st, [])
        else
          startNewProcess env cfg [Event.stop]
      else
        startNewProcess env cfg []

/-- Number of process starts (replacements) in an event list. -/
def countStarts (evs : List Event) : Nat :=
  (evs.filter (fun e =>
    match e with
    | Event.start _ => true
    | Event.stop => false)).length

/-- `GetXrayVersion` (part_000 lines 56-61, part_001 lines 63-68):
`"Unknown"` when `p == nil`, else `p.GetVersion()`. -/
def getXrayVersion (p : Option Process) : String :=
  match p with
  | none => "Unknown"
  | some pr => pr.version

/-! ## Restart flag (`SetToNeedRestart` / `IsNeedRestartAndSetFalse`) -/

/-- `SetToNeedRestart` (part_000 lines 349-351):
`isNeedXrayRestart.Store(true)`. -/
def setToNeedRestart (_flag : Bool) : Bool := true

/-- `IsNeedRestartAndSetFalse` (part_000 lines 354-356):
`isNeedXrayRestart.CompareAndSwap(true, false)` — atomically, if the
flag is `true` it becomes `false` and the call returns `true`; otherwise
the flag is left as it is and the call returns `false`. Returns
(returned value, flag afterwards); atomicity makes the sequential
composition below the faithful model of any interleaving. -/
def isNeedRestartAndSetFalse (flag : Bool) : Bool × Bool :=
  if flag = true then (true, false) else (false, flag)

/-- `n` consecutive `IsNeedRestartAndSetFalse` calls starting from a
given flag value: the list of returned values. -/
def consumeRuns : Bool → Nat → List Bool
  | _, 0 => []
  | flag, n + 1 =>
      let r := isNeedRestartAndSetFalse flag
      r.1 :: consumeRuns r.2 n

/-! ## Warp registration parsing and license update (`web/service/warp.go`) -/

/-- The persisted credential JSON built by `RegWarp`
(warp.go lines 199-200 / 409-410): two `fmt.Sprintf` pieces
concatenated. Written with `\x7b` and `\x7d` escapes for the literal
braces. -/
def warpDataJson (token deviceId license secretKey : String) : String :=
  "\x7b\n  \"access_token\": \"" ++ token ++ "\",\n  \"device_id\": \"" ++
    deviceId ++ "\"," ++ "\n  \"license_key\": \"" ++ license ++
    "\",\n  \"private_key\": \"" ++ secretKey ++ "\"\n\x7d"

/-- Errors of the response-validation sequence of `RegWarp` in the first
variant (warp.go lines 179-197). Constructors correspond, in order, to
the Go messages: missing or invalid id in response data; missing or
invalid token in response data; missing or invalid account in response
data; missing or invalid license in account data. -/
inductive RegErr where
  | missingId
  | missingToken
  | missingAccount
  | missingLicense
deriving DecidableEq, Repr

/-- Response handling of `RegWarp`, first variant (warp.go lines
173-206), applied to the decoded response object: each field is read
with a checked type assertion and any failure returns an error before
`SetWarp` is reached, so nothing is persisted on error; on success the
credential `warpDataJson token deviceId license secretKey` is persisted.
This runs once, after `doWithRetry` has returned — a malformed body is
never retried. -/
def regWarpParseV1 (rspData : List (String × JVal)) (secretKey : String) :
    Except RegErr String :=
  match rspData.lookup "id" with
  | some (JVal.str deviceId) =>
      match rspData.lookup "token" with
      | some (JVal.str token) =>
          match rspData.lookup "account" with
          | some (JVal.obj accountMap) =>
              match accountMap.lookup "license" with
              | some (JVal.str license) =>
                  Except.ok (warpDataJson token deviceId license secretKey)
              | _ => Except.error RegErr.missingLicense
          | _ => Except.error RegErr.missingAccount
      | _ => Except.error RegErr.missingToken
  | _ => Except.error RegErr.missingId

/-- Normal-return or runtime-crash outcome of a Go call: `ret value err`
is a normal `return value, err` (with `none` a nil error), `crash` is a
runtime panic (an unchecked single-valued type assertion that failed). -/
inductive GoOutcome where
  | ret (value : String) (err : Option String)
  | crash
deriving DecidableEq, Repr

/-- Response handling of `RegWarp`, second variant (warp.go lines
395-416): `rspData["id"].(string)` and `rspData["token"].(string)` are
unchecked single-valued assertions that crash when the field is absent
or not a string, as is the assertion on `rspData["account"]`; the final
`license, ok := ....(string)` is checked, but its failure branch is
`return "", err` where `err` is the nil error of the successful
`json.Unmarshal` — a normal return with no error. The Bool records
whether `SetWarp` was reached (credential persisted). -/
def regWarpParseV2 (rspData : List (String × JVal)) (secretKey : String) :
    GoOutcome × Bool :=
  match rspData.lookup "id" with
  | some (JVal.str deviceId) =>
      match rspData.lookup "token" with
      | some (JVal.str token) =>
          match rspData.lookup "account" with
          | some (JVal.obj accountMap) =>
              match accountMap.lookup "license" with
              | some (JVal.str license) =>
                  (GoOutcome.ret (warpDataJson token deviceId license secretKey)
                    none, true)
              | _ => (GoOutcome.ret "" none, false)
          | _ => (GoOutcome.crash, false)
      | _ => (GoOutcome.crash, false)
  | _ => (GoOutcome.crash, false)

/-- Go map assignment `m[k] = v` on a decoded `map[string]string`,
embedded on association lists: replace the value of an existing key,
else append the new entry. -/
def mapSet (k v : String) (m : List (String × String)) : List (String × String) :=
  if (m.lookup k).isSome then
    m.map (fun kv => if kv.1 = k then (k, v) else kv)
  else m ++ [(k, v)]

/-- The credential update of `SetWarpLicense` (warp.go line 253 /
line 453): `warpData["license_key"] = license` on the stored credential
map, which is then re-marshalled and persisted via `SetWarp`. Both
variants perform exactly this update. -/
def setWarpLicenseData (license : String) (warpData : List (String × String)) :
    List (String × String) :=
  mapSet "license_key" license warpData

/-! ## Client filter: lemmas and claims C1, C9 -/

theorem lookup_filter_of_key (k : String) (p : String × JVal → Bool)
    (hp : ∀ v, p (k, v) = true) :
    ∀ c : List (String × JVal), (c.filter p).lookup k = c.lookup k := by
  intro c
  induction c with
  | nil => rfl
  | cons kv tl ih =>
      obtain ⟨k₁, v₁⟩ := kv
      by_cases hk : k₁ = k
      · subst hk
        simp [List.filter_cons, hp v₁, List.lookup]
      · have hbeq : (k == k₁) = false := by
          simp [beq_iff_eq]
          exact fun h => hk h.symm
        by_cases hkeep : p (k₁, v₁) = true
        · simp [List.filter_cons, hkeep, List.lookup, hbeq, ih]
        · simp [List.filter_cons, hkeep, List.lookup, hbeq, ih]

theorem lookup_map_setFlow (k : String) (hk : k ≠ "flow") (w : JVal) :
    ∀ c : List (String × JVal),
      (c.map (fun kv => if kv.1 = "flow" then ("flow", w) else kv)).lookup k =
        c.lookup k := by
  intro c
  induction c with
  | nil => rfl
  | cons kv tl ih =>
      obtain ⟨k₁, v₁⟩ := kv
      by_cases h₁ : k₁ = "flow"
      · subst h₁
        have hbeq : (k == "flow") = false := by simp [hk]
        simp [List.lookup, hbeq, ih]
      · have hmap : ((k₁, v₁) :: tl).map
            (fun kv => if kv.1 = "flow" then ("flow", w) else kv) =
            (k₁, v₁) :: tl.map (fun kv => if kv.1 = "flow" then ("flow", w) else kv) := by
          simp [h₁]
        rw [hmap]
        cases hke : (k == k₁) with
        | true => simp [List.lookup, hke]
        | false => simp [List.lookup, hke, ih]

theorem lookup_normalizeFlow_ne (k : String) (hk : k ≠ "flow")
    (c : List (String × JVal)) : (normalizeFlow c).lookup k = c.lookup k := by
  unfold normalizeFlow
  by_cases h : isFlowAlias (c.lookup "flow") = true
  · simp only [h, if_true]
    exact lookup_map_setFlow k hk _ c
  · simp [h]

theorem lookup_cleanClient_email (c : List (String × JVal)) :
    (cleanClient c).lookup "email" = c.lookup "email" := by
  unfold cleanClient
  rw [lookup_normalizeFlow_ne "email" (by decide)]
  exact lookup_filter_of_key "email" _ (fun v => by simp [clientKeepKeys]) c

theorem hasEmail_keepClient (e : String) (j j' : JVal)
    (h : keepClient j = some j') : hasEmail e j' = hasEmail e j := by
  unfold keepClient at h
  match j, h with
  | JVal.obj c, h =>
      by_cases hd : isExplicitlyDisabled (c.lookup "enable") = true
      · simp [hd] at h
      · simp [hd] at h
        subst h
        simp [hasEmail, lookup_cleanClient_email]

theorem countEmail_cons (e : String) (x : JVal) (l : List JVal) :
    countEmail e (x :: l) = (if hasEmail e x then 1 else 0) + countEmail e l := by
  by_cases h : hasEmail e x = true
  · simp [countEmail, List.filter_cons, h, Nat.add_comm]
  · simp [countEmail, List.filter_cons, h]

/-- C9: the claim states that each client identity appears at most once
in the filter output even when it occurs several times in the input.
This is false for `filterActiveClients`: the `clientEmailSet` map is
never used to deduplicate the output, so an email occurring twice in the
input occurs twice in the output. Concretely, two input clients with
email `a@x` yield two output entries with email `a@x`. -/
theorem filterActiveClients_duplicate_email :
    countEmail "a@x" (filterActiveClients
      [JVal.obj [("email", JVal.str "a@x")], JVal.obj [("email", JVal.str "a@x")]]
      []) = 2 := by
  rfl

/-- C9 (amended): each client identity appears in the filter output at
most as many times as it appears in the input — the filter never
duplicates an entry, but it also never deduplicates, so a repeated input
identity stays repeated. -/
theorem filterActiveClients_countEmail_le
    (e : String) (clients : List JVal) (clientStats : List ClientTraffic) :
    countEmail e (filterActiveClients clients clientStats) ≤
      countEmail e clients := by
  unfold filterActiveClients
  induction clients with
  | nil => simp [countEmail]
  | cons j tl ih =>
      rw [countEmail_cons]
      cases hk : keepClient j with
      | none =>
          rw [List.filterMap_cons_none hk]
          exact Nat.le_trans ih (Nat.le_add_left _ _)
      | some j' =>
          rw [List.filterMap_cons_some hk, countEmail_cons,
            hasEmail_keepClient e j j' hk]
          exact Nat.add_le_add_left ih _

/-- C1: the claim states the filtered output contains no client whose
matching `ClientRecord` has `enabled = false`, so for client `a@x` with
a disabled record and `b@x` with no record the output should be only
`b@x`. The code violates this: the `clientStats` loop of
`filterActiveClients` deletes disabled emails only from a function-local
set and logs a removal, but never removes them from the returned list,
contradicting the doc comment of the function ("filters out inactive
clients") and its own log line. At the concrete input the output keeps
both `a@x` and `b@x`, while the log reports `a@x` as removed. -/
theorem filterActiveClients_keeps_disabled_record_client :
    filterActiveClients
        [JVal.obj [("email", JVal.str "a@x")], JVal.obj [("email", JVal.str "b@x")]]
        [⟨"a@x", false⟩] =
      [JVal.obj [("email", JVal.str "a@x")], JVal.obj [("email", JVal.str "b@x")]] ∧
    loggedRemovedEmails
        [JVal.obj [("email", JVal.str "a@x")], JVal.obj [("email", JVal.str "b@x")]]
        [⟨"a@x", false⟩] = ["a@x"] := by
  exact ⟨rfl, rfl⟩

/-! ## Retry loop: lemmas and claims C2, C3 -/

theorem retryAux_allFail_attempts (oracle : Nat → Except String Response)
    (delay : Nat → Nat) (msg : Nat → String)
    (h : ∀ i, oracle i = Except.error (msg i)) :
    ∀ r i last, (retryAux oracle delay i r last).attempts = r := by
  intro r
  induction r with
  | zero => intro i last; rfl
  | succ n ih =>
      intro i last
      simp [retryAux, h i, ih (i + 1) (msg i)]

theorem retryAux_fail_step (oracle : Nat → Except String Response)
    (delay : Nat → Nat) (i r : Nat) (last e : String)
    (ho : oracle i = Except.error e) :
    retryAux oracle delay i (r + 1) last =
      ⟨(retryAux oracle delay (i + 1) r e).result,
       (retryAux oracle delay (i + 1) r e).attempts + 1,
       delay i :: (retryAux oracle delay (i + 1) r e).sleepsNs⟩ := by
  simp [retryAux, ho]

theorem retryAux_allFail_result (oracle : Nat → Except String Response)
    (delay : Nat → Nat) (msg : Nat → String)
    (h : ∀ i, oracle i = Except.error (msg i)) :
    ∀ r i last, (retryAux oracle delay i (r + 1) last).result =
      Except.error ("all retry attempts failed: " ++ msg (i + r)) := by
  intro r
  induction r with
  | zero => intro i last; simp [retryAux, h i]
  | succ n ih =>
      intro i last
      have hrec := ih (i + 1) (msg i)
      have harg : i + 1 + n = i + (n + 1) := by omega
      rw [harg] at hrec
      rw [retryAux_fail_step oracle delay i (n + 1) last (msg i) (h i)]
      exact hrec

theorem retryAux_sleeps_mem (oracle : Nat → Except String Response)
    (delay : Nat → Nat) :
    ∀ r i last x, x ∈ (retryAux oracle delay i r last).sleepsNs →
      ∃ k, i ≤ k ∧ x = delay k := by
  intro r
  induction r with
  | zero => intro i last x hx; simp [retryAux] at hx
  | succ n ih =>
      intro i last x hx
      cases ho : oracle i with
      | ok resp => simp [retryAux, ho] at hx
      | error e =>
          simp [retryAux, ho] at hx
          rcases hx with hx | hx
          · exact ⟨i, Nat.le_refl i, hx⟩
          · obtain ⟨k, hk, hxk⟩ := ih (i + 1) e x hx
            exact ⟨k, by omega, hxk⟩

theorem retryAux_sleeps_pairwise (oracle : Nat → Except String Response)
    (delay : Nat → Nat) (hmono : ∀ a b : Nat, a < b → delay a < delay b) :
    ∀ r i last, ((retryAux oracle delay i r last).sleepsNs).Pairwise (· < ·) := by
  intro r
  induction r with
  | zero => intro i last; simp [retryAux]
  | succ n ih =>
      intro i last
      cases ho : oracle i with
      | ok resp => simp [retryAux, ho]
      | error e =>
          simp only [retryAux, ho]
          rw [List.pairwise_cons]
          refine ⟨?_, ih (i + 1) e⟩
          intro x hx
          obtain ⟨k, hk, rfl⟩ := retryAux_sleeps_mem oracle delay n (i + 1) e x hx
          exact hmono i k (by omega)

/-- C2 (amended): with every attempt failing at the transport level, the
first-variant retry loop performs exactly `maxRetries + 1` attempts for
any nonzero configured `maxRetries` (a configured 0 is treated as unset
and replaced by the default 5), every sleep is strictly longer than the
one before it — in particular the inter-attempt delays are monotonically
non-decreasing, with no maximum-backoff cap applied — and the final
return value is the error `all retry attempts failed: ...` wrapping the
message of the last underlying transport error. -/
theorem doWithRetry_persistent_failure (m : Nat) (jitter : Nat → Nat)
    (oracle : Nat → Except String Response) (msg : Nat → String)
    (hm : m ≠ 0)
    (hfail : ∀ i, oracle i = Except.error (msg i))
    (hj : ∀ i, 2 * jitter i < backoffNs i) :
    (doWithRetry m jitter oracle).attempts = m + 1 ∧
    ((doWithRetry m jitter oracle).sleepsNs).Pairwise (· < ·) ∧
    (doWithRetry m jitter oracle).result =
      Except.error ("all retry attempts failed: " ++ msg m) := by
  have heff : effMaxRetries m = m := by simp [effMaxRetries, hm]
  unfold doWithRetry
  rw [heff]
  refine ⟨retryAux_allFail_attempts oracle _ msg hfail (m + 1) 0 "", ?_, ?_⟩
  · apply retryAux_sleeps_pairwise
    have mono : StrictMono (fun i => backoffNs i + jitter i) := by
      apply strictMono_nat_of_lt_succ
      intro k
      have h1 := hj k
      have h2 := hj (k + 1)
      have hb : backoffNs (k + 1) = 2 * backoffNs k := by
        simp [backoffNs, pow_succ]; ring
      show backoffNs k + jitter k < backoffNs (k + 1) + jitter (k + 1)
      omega
    exact fun a b hab => mono hab
  · have hres := retryAux_allFail_result oracle
      (fun i => backoffNs i + jitter i) msg hfail m 0 ""
    simpa using hres

/-- Witness for C2 at concrete inputs: `maxRetries = 2`, zero jitter,
every attempt failing with a fixed transport error. -/
theorem doWithRetry_persistent_failure_witness :
    (doWithRetry 2 (fun _ => 0) (fun _ => Except.error "dial tcp: timeout")).attempts
      = 2 + 1 ∧
    ((doWithRetry 2 (fun _ => 0)
        (fun _ => Except.error "dial tcp: timeout")).sleepsNs).Pairwise (· < ·) ∧
    (doWithRetry 2 (fun _ => 0) (fun _ => Except.error "dial tcp: timeout")).result =
      Except.error ("all retry attempts failed: " ++ "dial tcp: timeout") :=
  doWithRetry_persistent_failure 2 (fun _ => 0) _ (fun _ => "dial tcp: timeout")
    (by decide) (fun _ => rfl)
    (fun i => by simp [backoffNs])

/-- C2 (counterexample): the claim asserts the delays are capped at a
configured maximum backoff ceiling and that every configured
`maxRetries` yields `maxRetries + 1` attempts. Neither holds: the
backoff schedule `(1 shifted left by i) * 500ms` used for every
configured bound is unbounded — no finite ceiling caps it — and a
configured `maxRetries` of 0 is silently replaced by 5, yielding 6
attempts rather than 1. -/
theorem doWithRetry_no_backoff_cap :
    (¬ ∃ C : Nat, ∀ i : Nat, backoffNs i ≤ C) ∧
    (doWithRetry 0 (fun _ => 0)
      (fun _ => Except.error "connection refused")).attempts = 6 := by
  constructor
  · rintro ⟨C, hC⟩
    have h1 : C < 2 ^ C := Nat.lt_two_pow C
    have h2 : 2 ^ C ≤ 2 ^ C * 500000000 :=
      Nat.le_mul_of_pos_right _ (by norm_num)
    have h3 := hC C
    simp only [backoffNs] at h3
    omega
  · rfl

/-- C3 (counterexample): the claim asserts that an attempt whose
response carries a 5xx status is retried. It is not: `doWithRetry`
returns as soon as `client.Do` yields a nil error, without inspecting
the status, so a first attempt answering 500 is returned after exactly
one attempt even though the next attempt would have answered 200. -/
theorem doWithRetry_5xx_not_retried :
    doWithRetryV2 5 (fun i => if i = 0 then Except.ok ⟨500⟩ else Except.ok ⟨200⟩) =
      ⟨Except.ok ⟨500⟩, 1, []⟩ := rfl

/-- C3 (amended): any received HTTP response — whatever its status,
5xx included — is returned immediately after the attempt that received
it, with no further attempts and no backoff sleep; only transport-level
errors are retried. In particular a non-retryable 4xx response is
returned immediately, as the original claim states. -/
theorem doWithRetry_response_returned_immediately (m : Nat)
    (oracle : Nat → Except String Response) (resp : Response)
    (h : oracle 0 = Except.ok resp) :
    doWithRetryV2 m oracle = ⟨Except.ok resp, 1, []⟩ := by
  unfold doWithRetryV2
  simp [retryAux, h]

/-- Witness for C3 at a concrete input: a 404 response on the first
attempt is returned at once. -/
theorem doWithRetry_response_returned_immediately_witness :
    doWithRetryV2 3 (fun _ => Except.ok ⟨404⟩) = ⟨Except.ok ⟨404⟩, 1, []⟩ :=
  doWithRetry_response_returned_immediately 3 _ ⟨404⟩ rfl

/-! ## Process supervisor: claims C4, C5, C10 -/

/-- C4: two consecutive `restart(force=false)` calls with no intervening
change to rules or credential (modelled by a fixed environment, so the
synthesized config is the same `cfg` both times). Provided the first
call returns success, the second call finds the freshly synthesized
config structurally equal to the running one, performs no stop and no
start (its event list is empty), leaves the state untouched and still
returns success; across the two calls at most one process replacement
(start event) occurs. -/
theorem restartXray_twice_noop (env : Env) (st₀ : XState) (cfg : Config)
    (hc : env.getConfig = Except.ok cfg)
    (h1 : (restartXray000 env false st₀).1 = Except.ok ()) :
    restartXray000 env false ((restartXray000 env false st₀).2.1) =
      (Except.ok (), (restartXray000 env false st₀).2.1, []) ∧
    countStarts ((restartXray000 env false st₀).2.2) ≤ 1 := by
  by_cases hrun : isXrayRunning st₀ = true
  · by_cases heq : runningConfig st₀ = some cfg
    · have hfix : restartXray000 env false st₀ = (Except.ok (), st₀, []) := by
        simp [restartXray000, hc, hrun, heq]
      rw [hfix]
      exact ⟨by simp [restartXray000, hc, hrun, heq], by simp [countStarts]⟩
    · by_cases hstop : env.stopOk = true
      · by_cases hstart : env.startOk = true
        · have hfix : restartXray000 env false st₀ =
              (Except.ok (), ⟨some ⟨cfg, true, env.version⟩, ""⟩,
               [Event.stop, Event.start cfg]) := by
            simp [restartXray000, hc, hrun, heq, hstop, startNewProcess, hstart]
          rw [hfix]
          refine ⟨by simp [restartXray000, hc, isXrayRunning, runningConfig], ?_⟩
          simp [countStarts]
        · exfalso
          have hbad : (restartXray000 env false st₀).1 =
              Except.error "start failed" := by
            simp [restartXray000, hc, hrun, heq, hstop, startNewProcess, hstart]
          rw [hbad] at h1
          exact Except.noConfusion h1
      · exfalso
        have hbad : (restartXray000 env false st₀).1 =
            Except.error "stop failed" := by
          simp [restartXray000, hc, hrun, heq, hstop]
        rw [hbad] at h1
        exact Except.noConfusion h1
  · by_cases hstart : env.startOk = true
    · have hfix : restartXray000 env false st₀ =
          (Except.ok (), ⟨some ⟨cfg, true, env.version⟩, ""⟩,
           [Event.start cfg]) := by
        simp [restartXray000, hc, hrun, startNewProcess, hstart]
      rw [hfix]
      refine ⟨by simp [restartXray000, hc, isXrayRunning, runningConfig], ?_⟩
      simp [countStarts]
    · exfalso
      have hbad : (restartXray000 env false st₀).1 =
          Except.error "start failed" := by
        simp [restartXray000, hc, hrun, startNewProcess, hstart]
      rw [hbad] at h1
      exact Except.noConfusion h1

/-- Witness for C4 at concrete inputs: starting from the stopped state,
the first call starts the process and the second is a successful
no-op. -/
theorem restartXray_twice_noop_witness :
    restartXray000 ⟨Except.ok ⟨["vmess-in"], ["warp"]⟩, true, true, "1.8.4"⟩ false
      ((restartXray000 ⟨Except.ok ⟨["vmess-in"], ["warp"]⟩, true, true, "1.8.4"⟩
        false ⟨none, ""⟩).2.1) =
      (Except.ok (),
       (restartXray000 ⟨Except.ok ⟨["vmess-in"], ["warp"]⟩, true, true, "1.8.4"⟩
         false ⟨none, ""⟩).2.1, []) ∧
    countStarts ((restartXray000
      ⟨Except.ok ⟨["vmess-in"], ["warp"]⟩, true, true, "1.8.4"⟩
      false ⟨none, ""⟩).2.2) ≤ 1 :=
  restartXray_twice_noop _ _ ⟨["vmess-in"], ["warp"]⟩ rfl rfl

/-- C5 (amended, part_001): when a process is running, the restart is
not a no-op, and stopping the old process fails, the part_001 variant
only logs the failure and proceeds: it constructs and starts the
replacement and returns the outcome of that start, never the stop
error. (The hypothesis `env.stopOk = false` is deliberately unused by
the proof: in this variant the outcome is independent of the stop
result.) -/
theorem restartXray001_stop_failure_proceeds (env : Env) (st : XState)
    (cfg : Config) (isForce : Bool)
    (hc : env.getConfig = Except.ok cfg)
    (hrun : isXrayRunning st = true)
    (hstop : env.stopOk = false)
    (hne : ¬(isForce = false ∧ runningConfig st = some cfg)) :
    restartXray001 env isForce st =
      ((if env.startOk = true then Except.ok () else Except.error "start failed"),
       ⟨some ⟨cfg, env.startOk, env.version⟩, ""⟩,
       [Event.stop, Event.start cfg]) := by
  simp [restartXray001, hc, hrun, hne, startNewProcess]

/-- Witness for C5 at concrete inputs: running with a different config,
stop fails, start succeeds — the call returns the start outcome
(success) with the replacement installed. -/
theorem restartXray001_stop_failure_proceeds_witness :
    restartXray001 ⟨Except.ok ⟨["inb-new"], []⟩, false, true, "1.8.4"⟩ false
        ⟨some ⟨⟨["inb-old"], []⟩, true, "1.8.3"⟩, ""⟩ =
      (Except.ok (), ⟨some ⟨⟨["inb-new"], []⟩, true, "1.8.4"⟩, ""⟩,
       [Event.stop, Event.start ⟨["inb-new"], []⟩]) :=
  restartXray001_stop_failure_proceeds _ _ _ false rfl rfl rfl (by decide)

/-- C5 (counterexample): the claim fails on the part_000 variant of
`RestartXray`, which returns the stop error and aborts: with a running
process, a differing new config and a failing stop, the call returns
the stop error, the old handle stays installed and no start is ever
attempted. -/
theorem restartXray000_stop_failure_aborts :
    restartXray000 ⟨Except.ok ⟨["inb-new"], []⟩, false, true, "1.8.4"⟩ false
        ⟨some ⟨⟨["inb-old"], []⟩, true, "1.8.3"⟩, ""⟩ =
      (Except.error "stop failed",
       ⟨some ⟨⟨["inb-old"], []⟩, true, "1.8.3"⟩, ""⟩,
       [Event.stop]) := rfl

/-- C10: `GetXrayVersion` returns the string `"Unknown"` whenever no
process handle exists (`p == nil`), and once a handle exists it
delegates to the version of that handle. -/
theorem getXrayVersion_spec :
    getXrayVersion none = "Unknown" ∧
    ∀ pr : Process, getXrayVersion (some pr) = pr.version :=
  ⟨rfl, fun _ => rfl⟩

/-! ## Restart flag: claim C6 -/

theorem consumeRuns_false : ∀ n : Nat, consumeRuns false n = List.replicate n false := by
  intro n
  induction n with
  | zero => rfl
  | succ k ih => simp [consumeRuns, isNeedRestartAndSetFalse, ih, List.replicate]

/-- C6: `IsNeedRestartAndSetFalse` is an atomic test-and-clear of the
restart flag: it returns `true` exactly when the flag was set, always
leaves the flag `false`, after a single `SetToNeedRestart` any number of
consecutive consumes yields `true` at most once, and a consume on an
unset flag returns `false` and leaves the flag `false` (no false-to-false
transition with a `true` return). Atomicity of `CompareAndSwap` makes
the sequential composition modelled here the faithful account of any
interleaving of callers. -/
theorem isNeedRestartAndSetFalse_spec :
    (∀ flag : Bool, (isNeedRestartAndSetFalse flag).1 = flag ∧
        (isNeedRestartAndSetFalse flag).2 = false) ∧
    (∀ (b : Bool) (n : Nat),
        (consumeRuns (setToNeedRestart b) n).count true ≤ 1) ∧
    isNeedRestartAndSetFalse false = (false, false) := by
  refine ⟨?_, ?_, rfl⟩
  · intro flag
    cases flag <;> simp [isNeedRestartAndSetFalse]
  · intro b n
    cases n with
    | zero => simp [consumeRuns]
    | succ k =>
        have hrun : consumeRuns (setToNeedRestart b) (k + 1) =
            true :: List.replicate k false := by
          simp [setToNeedRestart, consumeRuns, isNeedRestartAndSetFalse,
            consumeRuns_false]
        rw [hrun]
        simp [List.count_cons, List.count_replicate]

/-! ## Warp registration and license update: claims C7, C8 -/

/-- C7: the claim states `RegWarp` returns an error, without persisting
a credential, whenever the parsed response lacks a string id, token or
account.license. The second variant of the code violates it: on a
response with string id and token but an account object without a
license, the checked assertion fails and the code executes
`return "", err` where `err` is the nil error of the successful JSON
parse — a normal return carrying no error (while logging "Error
accessing license value."). Nothing is persisted, but the caller sees
success with an empty payload. The first variant behaves as claimed and
returns the missing-license error on the same input. -/
theorem regWarp_missing_license_no_error :
    regWarpParseV2 [("id", JVal.str "d1"), ("token", JVal.str "t1"),
        ("account", JVal.obj [])] "sk" = (GoOutcome.ret "" none, false) ∧
    regWarpParseV1 [("id", JVal.str "d1"), ("token", JVal.str "t1"),
        ("account", JVal.obj [])] "sk" = Except.error RegErr.missingLicense :=
  ⟨rfl, rfl⟩

theorem lookup_map_replace (k v : String) :
    ∀ m : List (String × String), (List.lookup k m).isSome = true →
      (m.map (fun kv => if kv.1 = k then (k, v) else kv)).lookup k = some v := by
  intro m
  induction m with
  | nil => intro h; simp [List.lookup] at h
  | cons kv tl ih =>
      obtain ⟨k₁, v₁⟩ := kv
      intro h
      by_cases h₁ : k₁ = k
      · subst h₁
        have hmap : ((k₁, v₁) :: tl).map (fun kv => if kv.1 = k₁ then (k₁, v) else kv) =
            (k₁, v) :: tl.map (fun kv => if kv.1 = k₁ then (k₁, v) else kv) := by
          simp
        rw [hmap]
        simp [List.lookup]
      · have hbeq : (k == k₁) = false := by
          simp [beq_iff_eq]
          exact fun hh => h₁ hh.symm
        have htl : (List.lookup k tl).isSome = true := by
          simpa [List.lookup, hbeq] using h
        have hmap : ((k₁, v₁) :: tl).map (fun kv => if kv.1 = k then (k, v) else kv) =
            (k₁, v₁) :: tl.map (fun kv => if kv.1 = k then (k, v) else kv) := by
          simp [h₁]
        rw [hmap]
        simp [List.lookup, hbeq, ih htl]

theorem lookup_append_single_self (k v : String) :
    ∀ m : List (String × String), List.lookup k m = none →
      (m ++ [(k, v)]).lookup k = some v := by
  intro m
  induction m with
  | nil => intro _; simp [List.lookup]
  | cons kv tl ih =>
      obtain ⟨k₁, v₁⟩ := kv
      intro h
      cases hke : (k == k₁) with
      | true =>
          simp only [List.lookup, hke] at h
          exact Option.noConfusion h
      | false =>
          simp only [List.lookup, hke] at h
          simp only [List.cons_append, List.lookup, hke]
          exact ih h

theorem lookup_mapSet_self (k v : String) (m : List (String × String)) :
    (mapSet k v m).lookup k = some v := by
  unfold mapSet
  by_cases h : (List.lookup k m).isSome = true
  · rw [if_pos h]
    exact lookup_map_replace k v m h
  · rw [if_neg h]
    exact lookup_append_single_self k v m (Option.not_isSome_iff_eq_none.mp h)

theorem lookup_map_replace_ne (q k v : String) (hq : q ≠ k) :
    ∀ m : List (String × String),
      (m.map (fun kv => if kv.1 = k then (k, v) else kv)).lookup q =
        m.lookup q := by
  intro m
  induction m with
  | nil => rfl
  | cons kv tl ih =>
      obtain ⟨k₁, v₁⟩ := kv
      by_cases h₁ : k₁ = k
      · subst h₁
        have hbeq : (q == k₁) = false := by simp [beq_iff_eq, hq]
        have hmap : ((k₁, v₁) :: tl).map (fun kv => if kv.1 = k₁ then (k₁, v) else kv) =
            (k₁, v) :: tl.map (fun kv => if kv.1 = k₁ then (k₁, v) else kv) := by
          simp
        rw [hmap]
        simp [List.lookup, hbeq, ih]
      · have hmap : ((k₁, v₁) :: tl).map (fun kv => if kv.1 = k then (k, v) else kv) =
            (k₁, v₁) :: tl.map (fun kv => if kv.1 = k then (k, v) else kv) := by
          simp [h₁]
        rw [hmap]
        cases hke : (q == k₁) with
        | true => simp [List.lookup, hke]
        | false => simp [List.lookup, hke, ih]

theorem lookup_append_single_ne (q k v : String) (hq : q ≠ k) :
    ∀ m : List (String × String), (m ++ [(k, v)]).lookup q = m.lookup q := by
  intro m
  induction m with
  | nil =>
      have hbeq : (q == k) = false := by simp [beq_iff_eq, hq]
      simp [List.lookup, hbeq]
  | cons kv tl ih =>
      obtain ⟨k₁, v₁⟩ := kv
      cases hke : (q == k₁) with
      | true => simp [List.lookup, hke]
      | false => simp [List.lookup, hke, ih]

theorem lookup_mapSet_ne (q k v : String) (hq : q ≠ k)
    (m : List (String × String)) : (mapSet k v m).lookup q = m.lookup q := by
  unfold mapSet
  by_cases h : (List.lookup k m).isSome = true
  · rw [if_pos h]
    exact lookup_map_replace_ne q k v hq m
  · rw [if_neg h]
    exact lookup_append_single_ne q k v hq m

/-- C8: `SetWarpLicense` applied to a stored credential with access
token `T`, device identifier `D` and private key `P` produces and
persists a credential whose `license_key` equals the new license while
`access_token`, `device_id` and `private_key` are unchanged: the only
mutation before re-marshalling and `SetWarp` is the single map
assignment `warpData["license_key"] = license`. -/
theorem setWarpLicense_frame (warpData : List (String × String)) (L T D P : String)
    (hT : warpData.lookup "access_token" = some T)
    (hD : warpData.lookup "device_id" = some D)
    (hP : warpData.lookup "private_key" = some P) :
    (setWarpLicenseData L warpData).lookup "license_key" = some L ∧
    (setWarpLicenseData L warpData).lookup "access_token" = some T ∧
    (setWarpLicenseData L warpData).lookup "device_id" = some D ∧
    (setWarpLicenseData L warpData).lookup "private_key" = some P := by
  unfold setWarpLicenseData
  refine ⟨lookup_mapSet_self _ _ _, ?_, ?_, ?_⟩
  · rw [lookup_mapSet_ne "access_token" "license_key" L (by decide) warpData]
    exact hT
  · rw [lookup_mapSet_ne "device_id" "license_key" L (by decide) warpData]
    exact hD
  · rw [lookup_mapSet_ne "private_key" "license_key" L (by decide) warpData]
    exact hP

/-- Witness for C8 at a concrete stored credential. -/
theorem setWarpLicense_frame_witness :
    (setWarpLicenseData "NEW-LICENSE"
      [("access_token", "T0"), ("device_id", "D0"), ("license_key", "OLD"),
       ("private_key", "P0")]).lookup "license_key" = some "NEW-LICENSE" ∧
    (setWarpLicenseData "NEW-LICENSE"
      [("access_token", "T0"), ("device_id", "D0"), ("license_key", "OLD"),
       ("private_key", "P0")]).lookup "access_token" = some "T0" ∧
    (setWarpLicenseData "NEW-LICENSE"
      [("access_token", "T0"), ("device_id", "D0"), ("license_key", "OLD"),
       ("private_key", "P0")]).lookup "device_id" = some "D0" ∧
    (setWarpLicenseData "NEW-LICENSE"
      [("access_token", "T0"), ("device_id", "D0"), ("license_key", "OLD"),
       ("private_key", "P0")]).lookup "private_key" = some "P0" :=
  setWarpLicense_frame _ "NEW-LICENSE" "T0" "D0" "P0" rfl rfl rfl

end XUi
